import Mathlib

/-!
Verification of the multi-dialect database access layer (src-tauri/src/db).

This file gives a shallow embedding, in Lean 4, of the pure logic of the
database core: the SQL statement splitter, statement classification,
value coercion, the multi-statement transactional execution loop of the
Postgres driver, the driver factory, the connection-string builders and
the connection pool registry.  Network and database side effects are
abstracted as explicit oracles (functions supplied as arguments that
describe what the database returns for each call); everything else is
translated directly from the Rust source.
-/

/-! ## Characters and whitespace

Quote characters are written with Char.ofNat to keep the source free of
quote literals. -/

/-- Character constant: single quote. -/
def squoteC : Char := Char.ofNat 39

/-- Character constant: double quote. -/
def dquoteC : Char := Char.ofNat 34

/-- Character constant: backtick. -/
def btickC : Char := Char.ofNat 96

/-- Unicode White_Space property, as used by Rust's char::is_whitespace
and str::trim. -/
def rustIsWhitespace (c : Char) : Bool :=
  let n := c.toNat
  n == 0x09 || n == 0x0A || n == 0x0B || n == 0x0C || n == 0x0D || n == 0x20 ||
  n == 0x85 || n == 0xA0 || n == 0x1680 ||
  (0x2000 ≤ n && n ≤ 0x200A) ||
  n == 0x2028 || n == 0x2029 || n == 0x202F || n == 0x205F || n == 0x3000

/-- Embedding of Rust's str::trim on a character list: drop leading and
trailing whitespace. -/
def trimChars (l : List Char) : List Char :=
  ((l.dropWhile rustIsWhitespace).reverse.dropWhile rustIsWhitespace).reverse

/-! ## The SQL statement splitter

Embedding of PostgresDriver::split_sql_statements
(src-tauri/src/db/postgres.rs).  The scanner state carries the emitted
statements, the current statement being accumulated, and the five
mutually exclusive context flags of the source. -/

/-- Scanner state of split_sql_statements: emitted statements, current
statement text, and the five context flags in_single_quote,
in_double_quote, in_backtick, in_line_comment, in_block_comment. -/
structure SplitAcc where
  stmts : List (List Char)
  cur : List Char
  sq : Bool
  dq : Bool
  bt : Bool
  lc : Bool
  bc : Bool
deriving Repr, DecidableEq

/-- True when all five context flags are clear (the scanner is at
top level). -/
def SplitAcc.clear (st : SplitAcc) : Bool :=
  !st.sq && !st.dq && !st.bt && !st.lc && !st.bc

/-- True when the scanner is inside a quoted literal or a comment. -/
def SplitAcc.inContext (st : SplitAcc) : Bool :=
  st.sq || st.dq || st.bt || st.lc || st.bc

/-- Flush the current statement: trim it and append it to the emitted
list when nonempty (the body of the semicolon arm and the final flush of
split_sql_statements). -/
def flushCur (stmts : List (List Char)) (cur : List Char) : List (List Char) :=
  let t := trimChars cur
  if t.isEmpty then stmts else stmts ++ [t]

/-- One iteration of the split_sql_statements loop: process character c
with lookahead peek.  Returns the new state and whether the peeked
character was also consumed (by chars.next() inside the arm).  The match
arms of the Rust loop appear in order. -/
def stepChar (st : SplitAcc) (c : Char) (peek : Option Char) : SplitAcc × Bool :=
  if c = squoteC && !st.dq && !st.bt && !st.lc && !st.bc then
    -- escaped-quote handling inside a single-quoted literal
    if st.sq && peek = some squoteC then
      ({ st with cur := st.cur ++ [c, squoteC] }, true)
    else
      ({ st with sq := !st.sq, cur := st.cur ++ [c] }, false)
  else if c = dquoteC && !st.sq && !st.bt && !st.lc && !st.bc then
    ({ st with dq := !st.dq, cur := st.cur ++ [c] }, false)
  else if c = btickC && !st.sq && !st.dq && !st.lc && !st.bc then
    ({ st with bt := !st.bt, cur := st.cur ++ [c] }, false)
  else if c = '-' && st.clear then
    if peek = some '-' then ({ st with lc := true }, true)
    else ({ st with cur := st.cur ++ [c] }, false)
  else if c = '\n' && st.lc then
    ({ st with lc := false }, false)
  else if c = '/' && st.clear then
    if peek = some '*' then ({ st with bc := true }, true)
    else ({ st with cur := st.cur ++ [c] }, false)
  else if c = '*' && st.bc then
    if peek = some '/' then ({ st with bc := false }, true)
    else (st, false)
  else if c = ';' && st.clear then
    ({ st with stmts := flushCur st.stmts st.cur, cur := [] }, false)
  else if !st.lc && !st.bc then
    ({ st with cur := st.cur ++ [c] }, false)
  else
    (st, false)

/-- The character-consuming loop of split_sql_statements, iterating
stepChar over the input. -/
def splitAux (st : SplitAcc) : List Char → SplitAcc
  | [] => st
  | [c] => (stepChar st c none).1
  | c :: c2 :: rest =>
    let r := stepChar st c (some c2)
    if r.2 then splitAux r.1 rest else splitAux r.1 (c2 :: rest)

/-- Initial scanner state. -/
def splitInit : SplitAcc :=
  { stmts := [], cur := [], sq := false, dq := false, bt := false,
    lc := false, bc := false }

/-- Embedding of PostgresDriver::split_sql_statements: scan the input,
then flush the remaining current statement. -/
def split_sql_statements (s : String) : List String :=
  let st := splitAux splitInit s.data
  (flushCur st.stmts st.cur).map (fun cs => String.mk cs)

/-! ## Data model (src-tauri/src/models, src-tauri/src/error.rs)

serde_json::Value is embedded as GVal.  Floating-point JSON numbers are
abstracted by their serde_json rendering (a string), since the claims
under verification never inspect a float. -/

/-- Embedding of serde_json::Value. -/
inductive GVal where
  | null : GVal
  | bool (b : Bool) : GVal
  | numInt (n : Int) : GVal
  | numFloat (render : String) : GVal
  | str (s : String) : GVal
  | arr (xs : List GVal) : GVal
  | obj (fields : List (String × GVal)) : GVal
deriving Repr

/-- Embedding of error.rs AppError.  The IoError and SerdeError variants
carry foreign payload types and never arise in the embedded code paths,
so they are omitted.  GenericError and Internal are kept for
completeness. -/
inductive AppError where
  | ConnectionError (msg : String) : AppError
  | QueryError (msg : String) : AppError
  | ValidationError (msg : String) : AppError
  | ConfigError (msg : String) : AppError
  | GenericError (msg : String) : AppError
  | Internal (msg : String) : AppError
  | ExtensionError (msg : String) : AppError
deriving Repr, DecidableEq

/-- Display implementation of AppError (the thiserror error strings),
used by the rollback-failure message of execute_query. -/
def AppError.display : AppError → String
  | .ConnectionError m => "Database connection error: " ++ m
  | .QueryError m => "Query execution error: " ++ m
  | .ValidationError m => "Validation error: " ++ m
  | .ConfigError m => "Configuration error: " ++ m
  | .GenericError m => "Error: " ++ m
  | .Internal m => "Internal error: " ++ m
  | .ExtensionError m => "Extension error: " ++ m

/-- Embedding of models::query::ColumnInfo. -/
structure ColumnInfo where
  name : String
  data_type : String
  nullable : Bool
  is_primary_key : Bool
deriving Repr, DecidableEq

/-- Embedding of models::query::QueryResult.  affected_rows is a u64 in
the source, so sums are taken modulo 2^64; execution_time_ms measures
wall-clock time, which the embedding abstracts as 0. -/
structure QueryResult where
  columns : List ColumnInfo
  rows : List (List GVal)
  affected_rows : Option Nat
  execution_time_ms : Nat
deriving Repr

/-- Embedding of models::connection::TestConnectionResult. -/
structure TestConnectionResult where
  success : Bool
  message : String
  server_version : Option String
deriving Repr, DecidableEq

/-- Embedding of models::connection::DatabaseType. -/
inductive DatabaseType where
  | PostgreSQL | MySQL | SQLite | MSSQL
deriving Repr, DecidableEq

/-- Embedding of models::connection::ConnectionConfig.  port is a u16 in
the source, modeled as a Nat. -/
structure ConnectionConfig where
  id : Option String
  name : String
  database_type : DatabaseType
  host : Option String
  port : Option Nat
  database : String
  username : Option String
  password : Option String
  ssl_mode : Option String
  file_path : Option String
deriving Repr, DecidableEq

/-- Wrap-around of u64 arithmetic (Rust release-build overflow
semantics). -/
def wrap64 (n : Nat) : Nat := n % (2 ^ 64)

/-! ## Leading-comment stripping and statement classification

Embedding of the clean_sql loops of execute_single_query /
execute_query (postgres.rs), execute_query (mysql.rs, sqlite.rs).
The loop consumes at least one character per iteration, so running it
with fuel length+1 computes the exact fixpoint of the source loop. -/

/-- Index of the first occurrence of pat as a contiguous sublist
(embedding of str::find on a pattern string; the sliced suffixes agree
with the byte-indexed Rust slices). -/
def findSub? (pat : List Char) : List Char → Option Nat
  | [] => if pat.isEmpty then some 0 else none
  | c :: rest =>
    if pat.isPrefixOf (c :: rest) then some 0
    else (findSub? pat rest).map (· + 1)

/-- One pass of the leading-comment stripping loop, with fuel.  Mirrors:
while clean starts with a line comment, drop through the newline and
trim; while it starts with a block comment, drop through the closing
marker and trim; an unterminated line comment leaves the empty string,
an unterminated block comment stops the loop. -/
def stripCommentsFuel : Nat → List Char → List Char
  | 0, s => s
  | fuel + 1, s =>
    if ['-', '-'].isPrefixOf s then
      match s.findIdx? (fun c => c = '\n') with
      | some i => stripCommentsFuel fuel (trimChars (s.drop i))
      | none => []
    else if ['/', '*'].isPrefixOf s then
      match findSub? ['*', '/'] s with
      | some i => stripCommentsFuel fuel (trimChars (s.drop (i + 2)))
      | none => s
    else s

/-- Leading-comment stripping applied to an already-trimmed statement. -/
def stripLeadingSqlComments (s : List Char) : List Char :=
  stripCommentsFuel (s.length + 1) s

/-- ASCII uppercase map (embedding of str::to_uppercase; the SQL
keywords compared against are ASCII). -/
def asciiToUpper (c : Char) : Char :=
  if 'a' ≤ c && c ≤ 'z' then Char.ofNat (c.toNat - 32) else c

/-- Trim, strip leading comments and uppercase a statement, as done
before classification in every driver. -/
def classifierText (sql : String) : List Char :=
  (stripLeadingSqlComments (trimChars sql.data)).map asciiToUpper

/-- Postgres driver classification: SELECT or WITH leads a row-returning
statement (postgres.rs execute_single_query and the multi-statement
loop). -/
def pg_is_select (sql : String) : Bool :=
  let upper := classifierText sql
  "SELECT".data.isPrefixOf upper || "WITH".data.isPrefixOf upper

/-- MySQL driver classification: SELECT, WITH, SHOW or DESCRIBE
(mysql.rs execute_query). -/
def mysql_is_select (sql : String) : Bool :=
  let upper := classifierText sql
  "SELECT".data.isPrefixOf upper || "WITH".data.isPrefixOf upper ||
  "SHOW".data.isPrefixOf upper || "DESCRIBE".data.isPrefixOf upper

/-- SQLite driver classification: SELECT, WITH or PRAGMA (sqlite.rs
execute_query). -/
def sqlite_is_select (sql : String) : Bool :=
  let upper := classifierText sql
  "SELECT".data.isPrefixOf upper || "WITH".data.isPrefixOf upper ||
  "PRAGMA".data.isPrefixOf upper

/-! ## Value coercion engine

Embedding of pg_value_to_json (postgres.rs) and of the inline row-decode
chains of sqlite.rs / mysql.rs.  A dialect-native column value is
embedded as an inductive with one constructor per decodable type family;
a typed extraction attempt (sqlx try_get::<T>) is modeled as succeeding
exactly on the matching constructor, and always failing on the NULL
value, which is sqlx's documented behavior for non-Option decodes
(UnexpectedNullError).  Payloads whose Rust rendering is a foreign
library's formatting (chrono, time, uuid, f64, BitVec debug output) are
carried as their already-rendered strings. -/

/-- Standard base64 alphabet. -/
def b64Chars : List Char :=
  ("ABCDEFGHIJKLMNOPQRSTUVWXYZabcdefghijklmnopqrstuvwxyz0123456789+/").data

/-- Digit of the standard base64 alphabet. -/
def b64c (n : Nat) : Char := b64Chars.getD n 'A'

/-- Base64 encoding of a byte list, three bytes at a time with
trailing = padding. -/
def base64Chunks : List Nat → List Char
  | [] => []
  | [a] => [b64c (a / 4), b64c (a % 4 * 16), '=', '=']
  | [a, b] => [b64c (a / 4), b64c (a % 4 * 16 + b / 16), b64c (b % 16 * 4), '=']
  | a :: b :: c :: rest =>
    b64c (a / 4) :: b64c (a % 4 * 16 + b / 16) :: b64c (b % 16 * 4 + c / 64) ::
    b64c (c % 64) :: base64Chunks rest

/-- Embedding of the base64_encode helper (postgres.rs). -/
def base64_encode (bytes : List Nat) : String := String.mk (base64Chunks bytes)

/-- Strict UTF-8 decoding of a byte list (embedding of
std::str::from_utf8): fails exactly on malformed sequences, overlong
encodings and surrogates. -/
def utf8Decode? : List Nat → Option (List Char)
  | [] => some []
  | b :: rest =>
    if b < 0x80 then (utf8Decode? rest).map (fun cs => Char.ofNat b :: cs)
    else if 0xC2 ≤ b && b ≤ 0xDF then
      match rest with
      | b2 :: rest2 =>
        if 0x80 ≤ b2 && b2 ≤ 0xBF then
          (utf8Decode? rest2).map
            (fun cs => Char.ofNat ((b - 0xC0) * 64 + (b2 - 0x80)) :: cs)
        else none
      | [] => none
    else if 0xE0 ≤ b && b ≤ 0xEF then
      match rest with
      | b2 :: b3 :: rest2 =>
        let lo2 := if b = 0xE0 then 0xA0 else 0x80
        let hi2 := if b = 0xED then 0x9F else 0xBF
        if lo2 ≤ b2 && b2 ≤ hi2 && 0x80 ≤ b3 && b3 ≤ 0xBF then
          (utf8Decode? rest2).map
            (fun cs =>
              Char.ofNat ((b - 0xE0) * 4096 + (b2 - 0x80) * 64 + (b3 - 0x80)) :: cs)
        else none
      | _ => none
    else if 0xF0 ≤ b && b ≤ 0xF4 then
      match rest with
      | b2 :: b3 :: b4 :: rest2 =>
        let lo2 := if b = 0xF0 then 0x90 else 0x80
        let hi2 := if b = 0xF4 then 0x8F else 0xBF
        if lo2 ≤ b2 && b2 ≤ hi2 && 0x80 ≤ b3 && b3 ≤ 0xBF &&
            0x80 ≤ b4 && b4 ≤ 0xBF then
          (utf8Decode? rest2).map
            (fun cs =>
              Char.ofNat ((b - 0xF0) * 262144 + (b2 - 0x80) * 4096 +
                (b3 - 0x80) * 64 + (b4 - 0x80)) :: cs)
        else none
      | _ => none
    else none

/-- Rust char::is_control: the Unicode Cc category. -/
def rustIsControl (c : Char) : Bool :=
  c.toNat ≤ 0x1F || (0x7F ≤ c.toNat && c.toNat ≤ 0x9F)

/-- Two-digit zero-padded rendering of a Nat below 100. -/
def pad2 (n : Nat) : String :=
  if n < 10 then "0" ++ toString n else toString n

/-- Rendering of PgMoney: cents divided by 100.0 formatted with two
decimals and a dollar sign (integer arithmetic gives the same digits as
the f64 formatting of the source for all realistic amounts). -/
def formatMoney (cents : Int) : String :=
  let sign := if cents < 0 then "-" else ""
  let a := cents.natAbs
  "$" ++ sign ++ toString (a / 100) ++ "." ++ pad2 (a % 100)

/-- Embedding of a PostgreSQL column value as seen through sqlx's typed
decodes, one constructor per try_get target type of pg_value_to_json;
vother is a value no typed decode accepts (enum, composite, tsvector,
...), carried as its raw bytes. -/
inductive PgValue where
  | vnull
  | vstring (s : String)
  | vuuid (s : String)
  | vi64 (n : Int)
  | vi32 (n : Int)
  | vi16 (n : Int)
  | vf64 (render : String)
  | vf32 (render : String)
  | vdecimal (s : String)
  | vmoney (cents : Int)
  | vbool (b : Bool)
  | vnaiveDateTime (s : String)
  | vdateTimeUtc (rfc3339 : String)
  | vnaiveDate (s : String)
  | vnaiveTime (s : String)
  | vtimeDate (s : String)
  | vtimeTime (s : String)
  | vtimePrimitive (s : String)
  | vtimeOffset (s : String)
  | vinterval (months : Int) (days : Int) (microseconds : Int)
  | vipnetwork (s : String)
  | vipaddr (s : String)
  | vmacaddr (s : String)
  | vbitvec (debugRender : String)
  | vbytea (bytes : List Nat)
  | vjson (j : GVal)
  | varrString (l : List String)
  | varrI32 (l : List Int)
  | varrI64 (l : List Int)
  | varrF64 (l : List String)
  | varrBool (l : List Bool)
  | varrUuid (l : List String)
  | vother (rawBytes : List Nat)
deriving Repr

/-- Embedding of PostgresDriver::pg_value_to_json: NULL is checked first
through try_get_raw; then the typed extraction attempts run in source
order (each matching exactly its constructor); the final fallback
inspects the raw bytes — clean UTF-8 without non-whitespace control
characters becomes a plain string, anything else a tagged base64
string. -/
def pg_value_to_json : PgValue → GVal
  | .vnull => .null
  | .vstring s => .str s
  | .vuuid s => .str s
  | .vi64 n => .numInt n
  | .vi32 n => .numInt n
  | .vi16 n => .numInt n
  | .vf64 r => .numFloat r
  | .vf32 r => .numFloat r
  | .vdecimal s => .str s
  | .vmoney cents => .str (formatMoney cents)
  | .vbool b => .bool b
  | .vnaiveDateTime s => .str s
  | .vdateTimeUtc s => .str s
  | .vnaiveDate s => .str s
  | .vnaiveTime s => .str s
  | .vtimeDate s => .str s
  | .vtimeTime s => .str s
  | .vtimePrimitive s => .str s
  | .vtimeOffset s => .str s
  | .vinterval m d us =>
    .str (toString m ++ " months " ++ toString d ++ " days " ++
      toString us ++ " microseconds")
  | .vipnetwork s => .str s
  | .vipaddr s => .str s
  | .vmacaddr s => .str s
  | .vbitvec s => .str s
  | .vbytea bytes => .str (base64_encode bytes)
  | .vjson j => j
  | .varrString l => .arr (l.map (fun s => .str s))
  | .varrI32 l => .arr (l.map (fun n => .numInt n))
  | .varrI64 l => .arr (l.map (fun n => .numInt n))
  | .varrF64 l => .arr (l.map (fun r => .numFloat r))
  | .varrBool l => .arr (l.map (fun b => .bool b))
  | .varrUuid l => .arr (l.map (fun s => .str s))
  | .vother bytes =>
    match utf8Decode? bytes with
    | some chars =>
      if chars.all (fun c => !rustIsControl c || rustIsWhitespace c) then
        .str (String.mk chars)
      else
        .str ("[base64: " ++ base64_encode bytes ++ "]")
    | none => .str ("[base64: " ++ base64_encode bytes ++ "]")

/-- Embedding of a SQLite column value (storage classes, plus the
datetime renderings chrono can decode). -/
inductive SqliteValue where
  | vnull
  | vtext (s : String)
  | vinteger (n : Int)
  | vreal (render : String)
  | vblob (bytes : List Nat)
  | vnaiveDateTime (s : String)
  | vdateTimeUtc (rfc3339 : String)
deriving Repr

/-- Embedding of the SQLite row-decode chain of sqlite.rs execute_query:
try String, i64, i32, f64, bool, NaiveDateTime, DateTime in order, else
the string fallback.  There is no NULL check: a NULL value fails every
typed decode and lands in the fallback; an INTEGER is taken by the i64
branch before the i32/bool branches. -/
def sqlite_row_value_to_json : SqliteValue → GVal
  | .vtext s => .str s
  | .vinteger n => .numInt n
  | .vreal r => .numFloat r
  | .vnaiveDateTime s => .str s
  | .vdateTimeUtc s => .str s
  | .vnull => .str "Unsupported type"
  | .vblob _ => .str "Unsupported type"

/-- Embedding of a MySQL column value as seen through the decode chain
of mysql.rs. -/
inductive MySqlValue where
  | vnull
  | vtext (s : String)
  | vbytes (lossyUtf8 : String)
  | vinteger (n : Int)
  | vreal (render : String)
  | vnaiveDateTime (s : String)
  | vdateTimeUtc (rfc3339 : String)
deriving Repr

/-- Embedding of the MySQL row-decode chain of mysql.rs execute_query:
try String, Vec of u8 (lossy UTF-8), i64, i32, f64, bool, NaiveDateTime,
DateTime in order, else the string fallback; as for SQLite there is no
NULL check, so a NULL lands in the fallback. -/
def mysql_row_value_to_json : MySqlValue → GVal
  | .vtext s => .str s
  | .vbytes lossy => .str lossy
  | .vinteger n => .numInt n
  | .vreal r => .numFloat r
  | .vnaiveDateTime s => .str s
  | .vdateTimeUtc s => .str s
  | .vnull => .str "Unsupported type"

/-! ## Query execution (postgres.rs)

The database is abstracted as an explicit state of type sigma together
with an oracle record: fetchAll models sqlx::query(..).fetch_all,
execCmd models sqlx::query(..).execute (returning rows_affected), and
beginRes / commitRes / rollbackRes model the fallible transaction
operations.  Within a transaction the statements thread the tentative
state; execute_query returns the visible state after the call (the
tentative state on commit, the initial state on rollback — a rolled-back
or never-committed transaction has no observable effect), together with
the list of statement indices actually executed and the call's
result. -/

/-- Embedding of db::PoolRef: a dialect-tagged borrow of a pool. -/
inductive PoolRefTag where
  | postgres | mysql | sqlite
deriving Repr, DecidableEq

/-- A fetched row: column names and values, as sqlx rows carry them. -/
structure PgRow where
  cols : List String
  vals : List PgValue
deriving Repr

/-- Oracle describing what the database does on each driver call. -/
structure PgDb (σ : Type) where
  fetchAll : String → σ → Except String (σ × List PgRow)
  execCmd : String → σ → Except String (σ × Nat)
  beginRes : σ → Except String Unit
  commitRes : σ → Except String Unit
  rollbackRes : σ → Except String Unit

/-- Value of a row at a column index: out-of-range indexes fail every
try_get and the raw fallback, producing the unable-to-decode string of
the source. -/
def pgRowValueAt (r : PgRow) (i : Nat) : GVal :=
  match r.vals.get? i with
  | some v => pg_value_to_json v
  | none => .str "[Unable to decode value]"

/-- The empty QueryResult the multi-statement loop starts from. -/
def emptyQueryResult : QueryResult :=
  { columns := [], rows := [], affected_rows := none, execution_time_ms := 0 }

/-- Result construction for a fetched row set, as written (identically)
in execute_single_query and in the multi-statement loop: an empty row
set produces an empty result; otherwise column descriptors come from the
first row (type unknown, nullable, not primary key) and every row is
decoded positionally up to the column count. -/
def buildSelectResult (rows : List PgRow) : QueryResult :=
  match rows with
  | [] => { columns := [], rows := [], affected_rows := none, execution_time_ms := 0 }
  | r0 :: _ =>
    let columns : List ColumnInfo := r0.cols.map (fun n =>
      { name := n, data_type := "unknown", nullable := true, is_primary_key := false })
    { columns := columns,
      rows := rows.map (fun r => (List.range columns.length).map (fun i => pgRowValueAt r i)),
      affected_rows := none,
      execution_time_ms := 0 }

/-- One statement execution, the shared body of execute_single_query and
of each iteration of the multi-statement loop: trim, strip leading
comments, classify by leading keyword; SELECT/WITH fetches rows and
builds a row result with no affected count, anything else executes and
reports rows_affected; a native failure is wrapped as a QueryError. -/
def execStmtInTx {σ : Type} (db : PgDb σ) (stmt : String) (s : σ) :
    Except AppError (σ × QueryResult) :=
  if pg_is_select stmt then
    match db.fetchAll stmt s with
    | .error e => .error (.QueryError ("Query execution failed: " ++ e))
    | .ok (s', rows) => .ok (s', buildSelectResult rows)
  else
    match db.execCmd stmt s with
    | .error e => .error (.QueryError ("Query execution failed: " ++ e))
    | .ok (s', n) =>
      .ok (s', { columns := [], rows := [], affected_rows := some n,
                 execution_time_ms := 0 })

/-- Embedding of PostgresDriver::execute_single_query: reject a
non-Postgres pool reference, then run the single statement directly on
the pool. -/
def execute_single_query {σ : Type} (db : PgDb σ) (pool : PoolRefTag)
    (sql : String) (s : σ) : Except AppError (σ × QueryResult) :=
  match pool with
  | .postgres => execStmtInTx db sql s
  | _ => .error (.QueryError "Invalid pool type for Postgres driver")

/-- The result-accumulation step at the end of each iteration of the
multi-statement loop: sum reported affected counts; a statement that
produced rows replaces the data while keeping the accumulated count; on
the last statement, if nothing has produced rows, the final statement's
own result is taken wholesale. -/
def accumStep (final : QueryResult) (result : QueryResult) (isLast : Bool) :
    QueryResult :=
  let final1 :=
    match result.affected_rows with
    | some a =>
      match final.affected_rows with
      | some total => { final with affected_rows := some (wrap64 (total + a)) }
      | none => { final with affected_rows := some a }
    | none => final
  if 0 < result.rows.length then
    { result with affected_rows := final1.affected_rows }
  else if isLast && final1.rows.isEmpty then
    result
  else
    final1

/-- The multi-statement loop of execute_query: execute each statement in
the transaction, accumulate into the running final result, stop at the
first failure.  Returns the tentative state, the indices of the
statements that were executed, and the loop outcome. -/
def txLoop {σ : Type} (db : PgDb σ) :
    List String → Nat → σ → QueryResult → σ × List Nat × Except AppError QueryResult
  | [], _, s, final => (s, [], .ok final)
  | stmt :: rest, i, s, final =>
    match execStmtInTx db stmt s with
    | .error e => (s, [i], .error e)
    | .ok (s', r) =>
      let final' := accumStep final r rest.isEmpty
      let t := txLoop db rest (i + 1) s' final'
      (t.1, i :: t.2.1, t.2.2)

/-- Embedding of PostgresDriver::execute_query: reject a non-Postgres
pool, split the SQL, execute a single statement directly, otherwise run
all statements in one transaction — on loop success commit (a commit
failure is wrapped), on loop failure roll back and report the original
error, or, if the rollback itself fails, a chained error carrying
both. -/
def execute_query {σ : Type} (db : PgDb σ) (pool : PoolRefTag) (sql : String)
    (s0 : σ) : σ × List Nat × Except AppError QueryResult :=
  match pool with
  | .postgres =>
    match split_sql_statements sql with
    | [stmt] =>
      match execute_single_query db .postgres stmt s0 with
      | .ok (s', r) => (s', [0], .ok r)
      | .error e => (s0, [0], .error e)
    | stmts =>
      match db.beginRes s0 with
      | .error e => (s0, [], .error (.QueryError ("Failed to start transaction: " ++ e)))
      | .ok _ =>
        let t := txLoop db stmts 0 s0 emptyQueryResult
        match t.2.2 with
        | .ok r =>
          match db.commitRes t.1 with
          | .ok _ => (t.1, t.2.1, .ok { r with execution_time_ms := 0 })
          | .error ce =>
            (s0, t.2.1, .error (.QueryError ("Failed to commit transaction: " ++ ce)))
        | .error e =>
          match db.rollbackRes t.1 with
          | .ok _ => (s0, t.2.1, .error e)
          | .error re =>
            (s0, t.2.1, .error (.QueryError ("Query failed: " ++ e.display ++
              ". Transaction rollback also failed: " ++ re)))
  | _ => (s0, [], .error (.QueryError "Invalid pool type for Postgres driver"))

/-! ## Specification-side description of the multi-statement loop

These definitions state, independently of the loop, what the
accumulated final result is in terms of the list of per-statement
results; the equivalence with the loop is proved below. -/

/-- Run every statement in order, collecting each statement's individual
result (the specification-side counterpart of the loop). -/
def stmtResults {σ : Type} (db : PgDb σ) :
    List String → σ → Except AppError (σ × List QueryResult)
  | [], s => .ok (s, [])
  | stmt :: rest, s =>
    match execStmtInTx db stmt s with
    | .error e => .error e
    | .ok (s', r) =>
      match stmtResults db rest s' with
      | .error e => .error e
      | .ok (s'', rs) => .ok (s'', r :: rs)

/-- Pure accumulation of a list of per-statement results, flagging the
last element. -/
def accumulateResults (final : QueryResult) : List QueryResult → QueryResult
  | [] => final
  | [r] => accumStep final r true
  | r :: r2 :: rest => accumulateResults (accumStep final r false) (r2 :: rest)

/-- Last result that produced at least one row, starting from a carried
candidate. -/
def lastRowsFrom (o : Option QueryResult) (rs : List QueryResult) :
    Option QueryResult :=
  rs.foldl (fun acc r => if r.rows.isEmpty then acc else some r) o

/-- Affected-count accumulation step (u64 wrap-around addition). -/
def affStep (acc : Option Nat) (r : QueryResult) : Option Nat :=
  match r.affected_rows, acc with
  | some a, some t => some (wrap64 (t + a))
  | some a, none => some a
  | none, acc' => acc'

/-- Sum of the reported affected counts of a result list, none when no
statement reported one. -/
def sumAffectedFrom (acc : Option Nat) (rs : List QueryResult) : Option Nat :=
  rs.foldl affStep acc

/-- Specification of the final result of the multi-statement loop: if
some statement produced rows, the last such statement's data with the
total affected count; otherwise the last statement's own result. -/
def multiSpecResult (rs : List QueryResult) : QueryResult :=
  match lastRowsFrom none rs with
  | some r =>
    { columns := r.columns, rows := r.rows,
      affected_rows := sumAffectedFrom none rs,
      execution_time_ms := r.execution_time_ms }
  | none => rs.getLastD emptyQueryResult

/-- The consecutive statement indices i, i+1, ..., i+n-1 (the indices a
loop prefix executes). -/
def rangeFrom (i : Nat) : Nat → List Nat
  | 0 => []
  | n + 1 => i :: rangeFrom (i + 1) n

/-- Intermediate shape of the loop's running final result: carried
row data from the last row-producing statement (if any) plus the
accumulated affected count. -/
def midQR (o : Option QueryResult) (acc : Option Nat) : QueryResult :=
  match o with
  | none => { columns := [], rows := [], affected_rows := acc, execution_time_ms := 0 }
  | some r => { r with affected_rows := acc }

/-! ## Connection testing (postgres.rs, mysql.rs, sqlite.rs)

The transient pool open and the version query are abstracted as two
oracle outcomes. -/

/-- Embedding of whether an Except carries a value. -/
def exceptIsOk {α β : Type} : Except α β → Bool
  | .ok _ => true
  | .error _ => false

/-- Embedding of PostgresDriver::build_connection_string (the driver
method, postgres.rs): defaults localhost, 5432, postgres, empty
password; optional sslmode query parameter. -/
def pg_build_connection_string (config : ConnectionConfig) : String :=
  let host := config.host.getD "localhost"
  let port := config.port.getD 5432
  let username := config.username.getD "postgres"
  let password := config.password.getD ""
  let url := "postgresql://" ++ username ++ ":" ++ password ++ "@" ++ host ++
    ":" ++ toString port ++ "/" ++ config.database
  match config.ssl_mode with
  | some ssl => url ++ "?sslmode=" ++ ssl
  | none => url

/-- Embedding of MySqlDriver::build_connection_string (mysql.rs):
defaults localhost, 3306, root, empty password. -/
def mysql_build_connection_string (config : ConnectionConfig) : String :=
  let host := config.host.getD "localhost"
  let port := config.port.getD 3306
  let username := config.username.getD "root"
  let password := config.password.getD ""
  "mysql://" ++ username ++ ":" ++ password ++ "@" ++ host ++ ":" ++
    toString port ++ "/" ++ config.database

/-- Embedding of SqliteDriver::build_connection_string (sqlite.rs): the
file path (or the database field) with a sqlite: scheme prepended when
absent. -/
def sqlite_build_connection_string (config : ConnectionConfig) : String :=
  let path := config.file_path.getD config.database
  if "sqlite:".isPrefixOf path then path else "sqlite:" ++ path

/-- Embedding of PostgresDriver::test_connection: a pool-open failure or
a version-query failure propagates as a ConnectionError; only a full
round trip returns a TestConnectionResult, always with success true. -/
def pg_test_connection (config : ConnectionConfig)
    (connectRes : Except String Unit) (versionRes : Except String String) :
    Except AppError TestConnectionResult :=
  match connectRes with
  | .error e => .error (.ConnectionError ("PostgreSQL connection failed: " ++ e))
  | .ok _ =>
    match versionRes with
    | .error e => .error (.ConnectionError ("Failed to get version: " ++ e))
    | .ok version =>
      .ok { success := true,
            message := "PostgreSQL connection to " ++ config.database ++ " successful",
            server_version := some version }

/-- Embedding of SqliteDriver::test_connection; same shape as the
Postgres one. -/
def sqlite_test_connection (config : ConnectionConfig)
    (connectRes : Except String Unit) (versionRes : Except String String) :
    Except AppError TestConnectionResult :=
  match connectRes with
  | .error e => .error (.ConnectionError ("SQLite connection failed: " ++ e))
  | .ok _ =>
    match versionRes with
    | .error e => .error (.ConnectionError ("Failed to get version: " ++ e))
    | .ok version =>
      .ok { success := true,
            message := "SQLite connection to " ++ config.database ++ " successful",
            server_version := some ("SQLite " ++ version) }

/-- Embedding of MySqlDriver::test_connection; same shape as the
Postgres one. -/
def mysql_test_connection (config : ConnectionConfig)
    (connectRes : Except String Unit) (versionRes : Except String String) :
    Except AppError TestConnectionResult :=
  match connectRes with
  | .error e => .error (.ConnectionError ("MySQL connection failed: " ++ e))
  | .ok _ =>
    match versionRes with
    | .error e => .error (.ConnectionError ("Failed to get version: " ++ e))
    | .ok version =>
      .ok { success := true,
            message := "MySQL connection to " ++ config.database ++ " successful",
            server_version := some version }

/-! ## Driver factory (connection.rs) -/

/-- The concrete driver implementations a factory call can return. -/
inductive DriverKind where
  | postgres | mysql | sqlite
deriving Repr, DecidableEq

/-- Embedding of db::connection::get_driver: the MSSQL arm returns the
Postgres driver as a placeholder (the TODO in the source), it does not
fail. -/
def get_driver (config : ConnectionConfig) : DriverKind :=
  match config.database_type with
  | .PostgreSQL => .postgres
  | .MySQL => .mysql
  | .SQLite => .sqlite
  | .MSSQL => .postgres

/-! ## Connection pool registry (manager.rs)

The two HashMaps are embedded as association lists with
insert-replaces-existing-key semantics; pool handles are abstracted by
their dialect tag (closing a pool has no registry-visible effect beyond
removal).  The outcome of the native pool open is an oracle argument. -/

/-- Dialect tag of a stored pool (embedding of ConnectionPool). -/
inductive PoolKind where
  | postgres | mysql | sqlite
deriving Repr, DecidableEq

/-- Remove a key from an association list (HashMap::remove). -/
def eraseKey {α : Type} (m : List (String × α)) (k : String) : List (String × α) :=
  m.filter (fun p => p.1 != k)

/-- Insert a key, replacing any existing entry (HashMap::insert). -/
def insertKey {α : Type} (m : List (String × α)) (k : String) (v : α) :
    List (String × α) :=
  eraseKey m k ++ [(k, v)]

/-- Key membership (HashMap::contains_key). -/
def containsKey {α : Type} (m : List (String × α)) (k : String) : Bool :=
  m.any (fun p => p.1 == k)

/-- Lookup (HashMap::get). -/
def lookupKey {α : Type} (m : List (String × α)) (k : String) : Option α :=
  (m.find? (fun p => p.1 == k)).map (fun p => p.2)

/-- Embedding of ConnectionManager: the pool map and the
connection-string map. -/
structure ConnMgr where
  connections : List (String × PoolKind)
  connection_strings : List (String × String)
deriving Repr, DecidableEq

/-- The manager constructed by ConnectionManager::new. -/
def emptyMgr : ConnMgr := { connections := [], connection_strings := [] }

/-- Embedding of manager.rs build_postgres_connection_string (the
manager's own builder; same URL shape as the driver's). -/
def mgr_build_postgres_connection_string (config : ConnectionConfig) :
    Except AppError String :=
  .ok (pg_build_connection_string config)

/-- Embedding of manager.rs build_mysql_connection_string. -/
def mgr_build_mysql_connection_string (config : ConnectionConfig) :
    Except AppError String :=
  .ok (mysql_build_connection_string config)

/-- Embedding of manager.rs build_sqlite_connection_string: the file
path, or else the last slash-separated piece of the database field
(which always exists), with the sqlite: scheme prepended when absent. -/
def mgr_build_sqlite_connection_string (config : ConnectionConfig) :
    Except AppError String :=
  let path? :=
    match config.file_path with
    | some p => some p
    | none => (config.database.splitOn "/").getLast?
  match path? with
  | none => .error (.ConfigError "SQLite file path is required")
  | some path =>
    if "sqlite://".isPrefixOf path || "sqlite:".isPrefixOf path then
      .ok path
    else
      .ok ("sqlite:" ++ path)

/-- Embedding of ConnectionManager::disconnect: remove the pool (closing
it) and the stored connection string; unknown identifiers are a
no-op. -/
def mgr_disconnect (m : ConnMgr) (id : String) : ConnMgr :=
  { connections := eraseKey m.connections id,
    connection_strings := eraseKey m.connection_strings id }

/-- Embedding of ConnectionManager::connect: disconnect any existing
pool under the identifier first, then build the dialect connection
string and open the new pool (outcome given by the openRes oracle); on
success insert into both maps, on failure return the error with the maps
as left after the initial disconnect.  MSSQL fails before any open. -/
def mgr_connect (m : ConnMgr) (id : String) (config : ConnectionConfig)
    (openRes : Except String Unit) : ConnMgr × Except AppError Unit :=
  let m1 := if containsKey m.connections id then mgr_disconnect m id else m
  let attempt : Except AppError (PoolKind × String) :=
    match config.database_type with
    | .PostgreSQL =>
      match mgr_build_postgres_connection_string config with
      | .error e => .error e
      | .ok cs =>
        match openRes with
        | .error e => .error (.ConnectionError ("Failed to connect to PostgreSQL: " ++ e))
        | .ok _ => .ok (.postgres, cs)
    | .MySQL =>
      match mgr_build_mysql_connection_string config with
      | .error e => .error e
      | .ok cs =>
        match openRes with
        | .error e => .error (.ConnectionError ("Failed to connect to MySQL: " ++ e))
        | .ok _ => .ok (.mysql, cs)
    | .SQLite =>
      match mgr_build_sqlite_connection_string config with
      | .error e => .error e
      | .ok cs =>
        match openRes with
        | .error e => .error (.ConnectionError ("Failed to connect to SQLite: " ++ e))
        | .ok _ => .ok (.sqlite, cs)
    | .MSSQL => .error (.ConnectionError "MSSQL not yet implemented")
  match attempt with
  | .error e => (m1, .error e)
  | .ok (pool, cs) =>
    ({ connections := insertKey m1.connections id pool,
       connection_strings := insertKey m1.connection_strings id cs }, .ok ())

/-- Embedding of ConnectionManager::get_pool_ref: a missing identifier
is a ConnectionError, a present pool yields the reference with the
pool's dialect tag. -/
def mgr_get_pool_ref (m : ConnMgr) (id : String) : Except AppError PoolRefTag :=
  match lookupKey m.connections id with
  | none => .error (.ConnectionError "Connection not found")
  | some .postgres => .ok .postgres
  | some .mysql => .ok .mysql
  | some .sqlite => .ok .sqlite

/-- Embedding of ConnectionManager::is_connected. -/
def mgr_is_connected (m : ConnMgr) (id : String) : Bool :=
  containsKey m.connections id

/-- Embedding of ConnectionManager::list_connections. -/
def mgr_list_connections (m : ConnMgr) : List String :=
  m.connections.map (fun p => p.1)

/-- A registry operation, with the pool-open outcome attached to
connect. -/
inductive MgrOp where
  | connectOp (id : String) (config : ConnectionConfig) (openRes : Except String Unit)
  | disconnectOp (id : String)

/-- Apply one registry operation to the manager state. -/
def applyMgrOp (m : ConnMgr) : MgrOp → ConnMgr
  | .connectOp id config openRes => (mgr_connect m id config openRes).1
  | .disconnectOp id => mgr_disconnect m id

/-- Registry state reached from the fresh manager by a sequence of
operations. -/
def runMgrOps (ops : List MgrOp) : ConnMgr :=
  ops.foldl applyMgrOp emptyMgr

/-! ## Concrete fixtures used by witnesses and counterexamples -/

/-- A configuration whose dialect is the unimplemented MSSQL. -/
def mssqlConfig : ConnectionConfig :=
  { id := none, name := "srv", database_type := .MSSQL, host := some "localhost",
    port := some 1433, database := "db", username := some "sa",
    password := some "pw", ssl_mode := none, file_path := none }

/-- A plain PostgreSQL configuration. -/
def pgConfig : ConnectionConfig :=
  { id := none, name := "pg", database_type := .PostgreSQL, host := some "h",
    port := some 5432, database := "db", username := some "u",
    password := some "p", ssl_mode := none, file_path := none }

/-- A PostgreSQL configuration with every defaultable field absent. -/
def cfgDefaults : ConnectionConfig :=
  { id := none, name := "d", database_type := .PostgreSQL, host := none,
    port := none, database := "db", username := none, password := none,
    ssl_mode := none, file_path := none }

/-- Oracle under which every write succeeds affecting one row and every
fetch returns no rows; the state counts executed writes. -/
def writeDb : PgDb Nat :=
  { fetchAll := fun _ s => .ok (s, []),
    execCmd := fun _ s => .ok (s + 1, 1),
    beginRes := fun _ => .ok (),
    commitRes := fun _ => .ok (),
    rollbackRes := fun _ => .ok () }

/-- Oracle under which the statement BOOM fails with a fixed native
message and every other write succeeds affecting one row. -/
def boomDb : PgDb Nat :=
  { fetchAll := fun _ s => .ok (s, []),
    execCmd := fun sql s =>
      if sql = "BOOM" then .error "syntax error near BOOM" else .ok (s + 1, 1),
    beginRes := fun _ => .ok (),
    commitRes := fun _ => .ok (),
    rollbackRes := fun _ => .ok () }

/-- The boomDb oracle with a rollback that also fails. -/
def boomDbRbFail : PgDb Nat :=
  { fetchAll := fun _ s => .ok (s, []),
    execCmd := fun sql s =>
      if sql = "BOOM" then .error "syntax error near BOOM" else .ok (s + 1, 1),
    beginRes := fun _ => .ok (),
    commitRes := fun _ => .ok (),
    rollbackRes := fun _ => .error "connection lost" }

/-- The single row a SELECT 1 round trip produces. -/
def selRow : PgRow := { cols := ["?column?"], vals := [PgValue.vi32 1] }

/-- Oracle under which every fetch returns that one row and every write
reports three affected rows. -/
def oneRowDb : PgDb Nat :=
  { fetchAll := fun _ s => .ok (s, [selRow]),
    execCmd := fun _ s => .ok (s, 3),
    beginRes := fun _ => .ok (),
    commitRes := fun _ => .ok (),
    rollbackRes := fun _ => .ok () }

/-- Oracle under which every fetch returns an empty row set. -/
def emptySelDb : PgDb Nat :=
  { fetchAll := fun _ s => .ok (s, []),
    execCmd := fun _ s => .ok (s, 0),
    beginRes := fun _ => .ok (),
    commitRes := fun _ => .ok (),
    rollbackRes := fun _ => .ok () }

/-- A registry holding one Postgres pool under identifier a. -/
def mgrA : ConnMgr :=
  { connections := [("a", .postgres)],
    connection_strings := [("a", "postgresql://u:p@h:5432/db")] }

/-! # Theorems -/

/-! ## C4: the driver factory and the MSSQL dialect -/

/-- C4: the claim states that get_driver fails loudly for the MSSQL
dialect.  Evaluating the code at an MSSQL configuration shows it instead
silently returns the Postgres driver — the exact driver it returns for a
PostgreSQL configuration.  The specification (sections 4.2 and 9) states
failing loudly is the intent and calls the source behavior a latent
defect, so this is recorded as a code bug. -/
theorem C4_mssql_get_driver_silently_substitutes :
    get_driver mssqlConfig = DriverKind.postgres ∧
    get_driver mssqlConfig = get_driver pgConfig :=
  ⟨rfl, rfl⟩

/-! ## C5: test_connection on an unreachable database -/

/-- C5 counterexample: with the pool open failing (connection refused),
the Postgres driver's test_connection returns an error, not a
TestConnectionResult with success false as the claim states. -/
theorem C5_counterexample_test_connection_errors :
    pg_test_connection pgConfig (.error "connection refused") (.ok "PostgreSQL 16.0") =
      .error (.ConnectionError "PostgreSQL connection failed: connection refused") ∧
    exceptIsOk (pg_test_connection pgConfig (.error "connection refused")
      (.ok "PostgreSQL 16.0")) = false :=
  ⟨rfl, rfl⟩

/-- C5 amended: when the database cannot be reached, every driver's
test_connection propagates a ConnectionError carrying the native
diagnostic; a TestConnectionResult is returned only on a fully
successful round trip, and then always with success true (no driver ever
produces success false). -/
theorem C5_test_connection_failure_is_error
    (config : ConnectionConfig) (e : String) (vres : Except String String) :
    pg_test_connection config (.error e) vres =
      .error (.ConnectionError ("PostgreSQL connection failed: " ++ e)) ∧
    sqlite_test_connection config (.error e) vres =
      .error (.ConnectionError ("SQLite connection failed: " ++ e)) ∧
    mysql_test_connection config (.error e) vres =
      .error (.ConnectionError ("MySQL connection failed: " ++ e)) ∧
    (∀ cres r, pg_test_connection config cres vres = .ok r → r.success = true) ∧
    (∀ cres r, sqlite_test_connection config cres vres = .ok r → r.success = true) ∧
    (∀ cres r, mysql_test_connection config cres vres = .ok r → r.success = true) := by
  refine ⟨rfl, rfl, rfl, ?_, ?_, ?_⟩ <;>
  · intro cres r h
    cases cres with
    | error e2 => simp [pg_test_connection, sqlite_test_connection, mysql_test_connection] at h
    | ok u =>
      cases vres with
      | error e3 => simp [pg_test_connection, sqlite_test_connection, mysql_test_connection] at h
      | ok v =>
        simp [pg_test_connection, sqlite_test_connection, mysql_test_connection] at h
        rw [← h]

/-- C5 witness: the amended theorem applied at a concrete configuration,
a concrete failing open and a concrete successful round trip. -/
theorem C5_witness :
    pg_test_connection pgConfig (.error "x") (.ok "v") =
      .error (.ConnectionError ("PostgreSQL connection failed: " ++ "x")) ∧
    ({ success := true, message := "PostgreSQL connection to " ++ "db" ++ " successful",
       server_version := some "v" } : TestConnectionResult).success = true :=
  ⟨(C5_test_connection_failure_is_error pgConfig "x" (.ok "v")).1,
   (C5_test_connection_failure_is_error pgConfig "x" (.ok "v")).2.2.2.1 (.ok ())
     { success := true, message := "PostgreSQL connection to " ++ "db" ++ " successful",
       server_version := some "v" } rfl⟩

/-! ## C6: NULL coercion across the dialect drivers -/

/-- C6 counterexample: in the SQLite driver's row decoding, a NULL
column value coerces to the string Unsupported type, not to the generic
null, refuting the claim for the SQLite dialect. -/
theorem C6_counterexample_sqlite_null :
    sqlite_row_value_to_json SqliteValue.vnull = GVal.str "Unsupported type" ∧
    GVal.str "Unsupported type" ≠ GVal.null :=
  ⟨rfl, fun h => GVal.noConfusion h⟩

/-- C6 amended: the Postgres driver checks NULL first and coerces it to
the generic null; the SQLite and MySQL drivers have no null check, so a
NULL fails every typed extraction and coerces to the fallback string
Unsupported type. -/
theorem C6_null_coercion_by_dialect :
    pg_value_to_json PgValue.vnull = GVal.null ∧
    sqlite_row_value_to_json SqliteValue.vnull = GVal.str "Unsupported type" ∧
    mysql_row_value_to_json MySqlValue.vnull = GVal.str "Unsupported type" :=
  ⟨rfl, rfl, rfl⟩

/-! ## C9: connection-string construction -/

/-- C9: for Postgres and MySQL, build_connection_string is a pure
function of the configuration (equal configurations give equal strings)
and applies the documented defaults when host, port and username are
absent: postgres at localhost:5432 and root at localhost:3306
respectively. -/
theorem C9_build_connection_string_deterministic_defaults :
    (∀ c₁ c₂ : ConnectionConfig, c₁ = c₂ →
      pg_build_connection_string c₁ = pg_build_connection_string c₂ ∧
      mysql_build_connection_string c₁ = mysql_build_connection_string c₂) ∧
    (∀ c : ConnectionConfig, c.host = none → c.port = none → c.username = none →
      c.password = none → c.ssl_mode = none →
      pg_build_connection_string c =
        "postgresql://postgres:@localhost:5432/" ++ c.database ∧
      mysql_build_connection_string c =
        "mysql://root:@localhost:3306/" ++ c.database) := by
  constructor
  · intro c₁ c₂ h
    subst h
    exact ⟨rfl, rfl⟩
  · intro c h1 h2 h3 h4 h5
    constructor
    · simp only [pg_build_connection_string, h1, h2, h3, h4, h5, Option.getD_none]
      rfl
    · simp only [mysql_build_connection_string, h1, h2, h3, h4, Option.getD_none]
      rfl

/-! ## Association-list lemmas for the registry -/

theorem containsKey_eraseKey_self {α : Type} (l : List (String × α)) (k : String) :
    containsKey (eraseKey l k) k = false := by
  simp only [containsKey, eraseKey, List.any_eq_false, List.mem_filter,
    bne_iff_ne, beq_iff_eq]
  rintro p ⟨_, hne⟩
  exact hne

theorem containsKey_eraseKey_ne {α : Type} (l : List (String × α)) (k k' : String)
    (h : k' ≠ k) : containsKey (eraseKey l k) k' = containsKey l k' := by
  rw [Bool.eq_iff_iff]
  simp only [containsKey, eraseKey, List.any_eq_true, List.mem_filter,
    bne_iff_ne, beq_iff_eq]
  constructor
  · rintro ⟨p, ⟨hp, _⟩, he⟩
    exact ⟨p, hp, he⟩
  · rintro ⟨p, hp, he⟩
    exact ⟨p, ⟨hp, by rw [he]; exact h⟩, he⟩

theorem containsKey_insertKey_self {α : Type} (l : List (String × α)) (k : String)
    (v : α) : containsKey (insertKey l k v) k = true := by
  simp [insertKey, containsKey]

theorem containsKey_insertKey_ne {α : Type} (l : List (String × α)) (k k' : String)
    (v : α) (h : k' ≠ k) :
    containsKey (insertKey l k v) k' = containsKey l k' := by
  have h1 : containsKey (eraseKey l k) k' = containsKey l k' :=
    containsKey_eraseKey_ne l k k' h
  have h2 : ([(k, v)].any fun p => p.1 == k') = false := by
    simp [beq_eq_false_iff_ne.mpr (Ne.symm h)]
  simp only [insertKey, containsKey, List.any_append]
  rw [show ((eraseKey l k).any fun p => p.1 == k') = containsKey (eraseKey l k) k'
    from rfl, h1, h2, Bool.or_false]
  rfl

theorem lookupKey_isSome {α : Type} (l : List (String × α)) (k : String) :
    (lookupKey l k).isSome = containsKey l k := by
  induction l with
  | nil => rfl
  | cons p t ih =>
    by_cases h : p.1 = k
    · simp [lookupKey, containsKey, List.find?_cons, h]
    · have hb : (p.1 == k) = false := beq_eq_false_iff_ne.mpr h
      simp only [lookupKey, containsKey, List.find?_cons, hb, List.any_cons,
        Bool.false_or, cond_false]
      exact ih

theorem mem_map_fst_iff_containsKey {α : Type} (l : List (String × α)) (k : String) :
    k ∈ l.map (fun p => p.1) ↔ containsKey l k = true := by
  simp [containsKey, List.any_eq_true, List.mem_map, beq_iff_eq]

/-! ## C7: connect failure and the registry state -/

/-- C7 counterexample: with a pool already registered under identifier
a, a connect for a whose pool open fails returns the ConnectionError but
leaves a no longer registered — the prior pool was disconnected before
the open attempt, refuting the claim that it would still be
registered. -/
theorem C7_counterexample_prior_pool_not_kept :
    mgr_is_connected mgrA "a" = true ∧
    (mgr_connect mgrA "a" pgConfig (.error "refused")).2 =
      .error (.ConnectionError "Failed to connect to PostgreSQL: refused") ∧
    mgr_is_connected (mgr_connect mgrA "a" pgConfig (.error "refused")).1 "a" = false := by
  refine ⟨rfl, rfl, rfl⟩

/-- C7 amended: a failed pool open surfaces a ConnectionError carrying
the dialect's diagnostic text, and afterwards no entry for the
identifier exists in the registry; when no pool was previously
registered under the identifier the registry is unchanged, but a
previously registered pool has been disconnected and removed before the
open attempt, so it is no longer registered. -/
theorem C7_connect_failure_state (m : ConnMgr) (id : String)
    (config : ConnectionConfig) (e : String) (p : String) :
    (config.database_type = .PostgreSQL →
      mgr_connect m id config (.error e) =
        ((if containsKey m.connections id then mgr_disconnect m id else m),
         .error (.ConnectionError ("Failed to connect to PostgreSQL: " ++ e)))) ∧
    (config.database_type = .MySQL →
      mgr_connect m id config (.error e) =
        ((if containsKey m.connections id then mgr_disconnect m id else m),
         .error (.ConnectionError ("Failed to connect to MySQL: " ++ e)))) ∧
    (config.database_type = .SQLite → config.file_path = some p →
      mgr_connect m id config (.error e) =
        ((if containsKey m.connections id then mgr_disconnect m id else m),
         .error (.ConnectionError ("Failed to connect to SQLite: " ++ e)))) ∧
    (containsKey
      (if containsKey m.connections id then mgr_disconnect m id else m).connections
      id = false) ∧
    (containsKey m.connections id = false →
      (if containsKey m.connections id then mgr_disconnect m id else m) = m) := by
  refine ⟨?_, ?_, ?_, ?_, ?_⟩
  · intro h
    simp [mgr_connect, mgr_build_postgres_connection_string, h]
  · intro h
    simp [mgr_connect, mgr_build_mysql_connection_string, h]
  · intro h hfp
    have hb : ∃ cs, mgr_build_sqlite_connection_string config = .ok cs := by
      simp only [mgr_build_sqlite_connection_string, hfp]
      split
      · exact ⟨_, rfl⟩
      · exact ⟨_, rfl⟩
    obtain ⟨cs, hb⟩ := hb
    simp [mgr_connect, h, hb]
  · by_cases hc : containsKey m.connections id
    · simp [hc, mgr_disconnect, containsKey_eraseKey_self]
    · simp [hc]
  · intro hc
    simp [hc]

/-! ## C10: registry key-set invariant -/

/-- Shape of the state left by connect: either the post-disconnect state
(failure anywhere), or that state with both maps extended at the
identifier (success). -/
theorem mgr_connect_state_cases (m : ConnMgr) (id : String)
    (config : ConnectionConfig) (o : Except String Unit) :
    (mgr_connect m id config o).1 =
      (if containsKey m.connections id then mgr_disconnect m id else m) ∨
    ∃ pk cs,
      (mgr_connect m id config o).1 =
        { connections := insertKey
            (if containsKey m.connections id then mgr_disconnect m id else m).connections
            id pk,
          connection_strings := insertKey
            (if containsKey m.connections id then mgr_disconnect m id else m).connection_strings
            id cs } := by
  cases hdt : config.database_type with
  | PostgreSQL =>
    cases o with
    | error e => left; simp [mgr_connect, hdt, mgr_build_postgres_connection_string]
    | ok u =>
      right
      exact ⟨.postgres, pg_build_connection_string config,
        by simp [mgr_connect, hdt, mgr_build_postgres_connection_string]⟩
  | MySQL =>
    cases o with
    | error e => left; simp [mgr_connect, hdt, mgr_build_mysql_connection_string]
    | ok u =>
      right
      exact ⟨.mysql, mysql_build_connection_string config,
        by simp [mgr_connect, hdt, mgr_build_mysql_connection_string]⟩
  | SQLite =>
    cases hb : mgr_build_sqlite_connection_string config with
    | error e => left; simp [mgr_connect, hdt, hb]
    | ok cs =>
      cases o with
      | error e => left; simp [mgr_connect, hdt, hb]
      | ok u => right; exact ⟨.sqlite, cs, by simp [mgr_connect, hdt, hb]⟩
  | MSSQL => left; simp [mgr_connect, hdt]

/-- The initial disconnect of connect preserves key-set agreement of the
two maps. -/
theorem mgrInv_predisconnect (m : ConnMgr) (id : String)
    (h : ∀ k, containsKey m.connections k = containsKey m.connection_strings k) :
    ∀ k, containsKey
        (if containsKey m.connections id then mgr_disconnect m id else m).connections k =
      containsKey
        (if containsKey m.connections id then mgr_disconnect m id else m).connection_strings k := by
  intro k
  by_cases hc : containsKey m.connections id
  · by_cases hk : k = id
    · subst hk
      simp [hc, mgr_disconnect, containsKey_eraseKey_self]
    · simp [hc, mgr_disconnect, containsKey_eraseKey_ne _ _ _ hk, h k]
  · simp [hc, h k]

/-- Every registry operation preserves key-set agreement of the two
maps. -/
theorem mgrInv_apply (m : ConnMgr) (op : MgrOp)
    (h : ∀ k, containsKey m.connections k = containsKey m.connection_strings k) :
    ∀ k, containsKey (applyMgrOp m op).connections k =
      containsKey (applyMgrOp m op).connection_strings k := by
  intro k
  cases op with
  | disconnectOp id =>
    by_cases hk : k = id
    · subst hk
      simp [applyMgrOp, mgr_disconnect, containsKey_eraseKey_self]
    · simp [applyMgrOp, mgr_disconnect, containsKey_eraseKey_ne _ _ _ hk, h k]
  | connectOp id config openRes =>
    rcases mgr_connect_state_cases m id config openRes with hs | ⟨pk, cs, hs⟩
    · rw [applyMgrOp, hs]
      exact mgrInv_predisconnect m id h k
    · rw [applyMgrOp, hs]
      by_cases hk : k = id
      · subst hk
        simp [containsKey_insertKey_self]
      · simp only [containsKey_insertKey_ne _ _ _ _ hk]
        exact mgrInv_predisconnect m id h k

/-- Key-set agreement holds in every reachable registry state. -/
theorem mgrInv_foldl (ops : List MgrOp) :
    ∀ m, (∀ k, containsKey m.connections k = containsKey m.connection_strings k) →
      ∀ k, containsKey (ops.foldl applyMgrOp m).connections k =
        containsKey (ops.foldl applyMgrOp m).connection_strings k := by
  induction ops with
  | nil => intro m h; exact h
  | cons op rest ih =>
    intro m h
    exact ih (applyMgrOp m op) (mgrInv_apply m op h)

/-- C10: in every state reachable by connect and disconnect operations,
the pool map and the connection-string map have the same key set, and
is_connected agrees with get_pool_ref succeeding and with membership in
list_connections. -/
theorem C10_registry_maps_consistent (ops : List MgrOp) (id : String) :
    (containsKey (runMgrOps ops).connections id =
       containsKey (runMgrOps ops).connection_strings id) ∧
    (mgr_is_connected (runMgrOps ops) id =
       exceptIsOk (mgr_get_pool_ref (runMgrOps ops) id)) ∧
    (mgr_is_connected (runMgrOps ops) id = true ↔
       id ∈ mgr_list_connections (runMgrOps ops)) := by
  refine ⟨mgrInv_foldl ops emptyMgr (fun _ => rfl) id, ?_, ?_⟩
  · have hs := lookupKey_isSome (runMgrOps ops).connections id
    cases hl : lookupKey (runMgrOps ops).connections id with
    | none =>
      rw [hl] at hs
      simp [mgr_is_connected, mgr_get_pool_ref, hl, exceptIsOk, ← hs]
    | some pk =>
      rw [hl] at hs
      cases pk <;> simp [mgr_is_connected, mgr_get_pool_ref, hl, exceptIsOk, ← hs]
  · rw [mgr_is_connected, mgr_list_connections]
    exact (mem_map_fst_iff_containsKey _ _).symm

/-! ## C3: the statement splitter -/

theorem trimChars_idem (l : List Char) : trimChars (trimChars l) = trimChars l := by
  have hdef : ∀ x : List Char,
      trimChars x = List.rdropWhile rustIsWhitespace (List.dropWhile rustIsWhitespace x) :=
    fun _ => rfl
  have hA : List.dropWhile rustIsWhitespace (trimChars l) = trimChars l := by
    rw [List.dropWhile_eq_self_iff]
    intro hl
    have hpre : trimChars l <+: List.dropWhile rustIsWhitespace l := by
      rw [hdef]
      exact List.rdropWhile_prefix _ _
    have hlen : 0 < (List.dropWhile rustIsWhitespace l).length :=
      lt_of_lt_of_le hl hpre.length_le
    rw [hpre.get_eq hl]
    exact List.dropWhile_get_zero_not _ _ _
  calc trimChars (trimChars l)
      = List.rdropWhile rustIsWhitespace
          (List.dropWhile rustIsWhitespace (trimChars l)) := hdef _
    _ = List.rdropWhile rustIsWhitespace (trimChars l) := by rw [hA]
    _ = trimChars l := by
        rw [hdef l]
        exact List.rdropWhile_idempotent _ _

theorem flushCur_trimmed (stmts : List (List Char)) (cur : List Char)
    (h : ∀ t ∈ stmts, trimChars t = t ∧ t ≠ []) :
    ∀ t ∈ flushCur stmts cur, trimChars t = t ∧ t ≠ [] := by
  intro t ht
  unfold flushCur at ht
  by_cases he : (trimChars cur).isEmpty
  · rw [if_pos he] at ht
    exact h t ht
  · rw [if_neg he] at ht
    rcases List.mem_append.mp ht with hold | hnew
    · exact h t hold
    · have : t = trimChars cur := List.mem_singleton.mp hnew
      subst this
      exact ⟨trimChars_idem cur, by simpa [List.isEmpty_iff] using he⟩

set_option maxHeartbeats 1000000 in
theorem stepChar_stmts_trimmed (st : SplitAcc) (c : Char) (p : Option Char)
    (h : ∀ t ∈ st.stmts, trimChars t = t ∧ t ≠ []) :
    ∀ t ∈ (stepChar st c p).1.stmts, trimChars t = t ∧ t ≠ [] := by
  have hflush : ∀ t ∈ flushCur st.stmts st.cur, trimChars t = t ∧ t ≠ [] :=
    flushCur_trimmed st.stmts st.cur h
  unfold stepChar
  split_ifs <;> first
    | exact h
    | exact hflush

theorem splitAux_stmts_trimmed :
    ∀ (n : Nat) (st : SplitAcc) (l : List Char), l.length ≤ n →
      (∀ t ∈ st.stmts, trimChars t = t ∧ t ≠ []) →
      ∀ t ∈ (splitAux st l).stmts, trimChars t = t ∧ t ≠ [] := by
  intro n
  induction n with
  | zero =>
    intro st l hl h
    have : l = [] := List.length_eq_zero.mp (Nat.le_zero.mp hl)
    subst this
    simpa [splitAux] using h
  | succ n ih =>
    intro st l hl h
    match l with
    | [] => simpa [splitAux] using h
    | [c] =>
      simp only [splitAux]
      exact stepChar_stmts_trimmed st c none h
    | c :: c2 :: rest =>
      simp only [splitAux]
      have hstep := stepChar_stmts_trimmed st c (some c2) h
      by_cases hb : (stepChar st c (some c2)).2
      · simp only [hb, if_true]
        exact ih _ rest (by simp at hl; omega) hstep
      · simp only [hb, if_false]
        exact ih _ (c2 :: rest) (by simp at hl ⊢; omega) hstep

theorem split_sql_statements_trimmed (s : String) :
    ∀ t ∈ split_sql_statements s, trimChars t.data = t.data ∧ t ≠ "" := by
  intro t ht
  unfold split_sql_statements at ht
  rcases List.mem_map.mp ht with ⟨cs, hcs, rfl⟩
  have hbase : ∀ u ∈ (splitAux splitInit s.data).stmts, trimChars u = u ∧ u ≠ [] :=
    splitAux_stmts_trimmed s.data.length splitInit s.data le_rfl
      (by intro u hu; cases hu)
  have hprop := flushCur_trimmed _ _ hbase cs hcs
  refine ⟨hprop.1, ?_⟩
  intro hcontra
  exact hprop.2 (by
    have : (String.mk cs).data = ("" : String).data := by rw [hcontra]
    simpa using this)

/-- C3: the splitter never splits at a semicolon inside a quoted literal
or a comment — processing a semicolon in a comment state consumes it
without touching the statement list, and in a quote state appends it to
the current statement text, again without flushing; a doubled single
quote inside a single-quoted literal stays literal; every returned
statement equals its own whitespace trim and is nonempty; and the two
example inputs of the specification split exactly as stated. -/
theorem C3_split_sql_statements_contexts :
    (split_sql_statements ("SELECT ';' AS x; SELECT 2;") =
      ["SELECT ';' AS x", "SELECT 2"]) ∧
    (split_sql_statements ("-- a;\nSELECT 1;") = ["SELECT 1"]) ∧
    (split_sql_statements ("SELECT 'a;''b'; SELECT 2") =
      ["SELECT 'a;''b'", "SELECT 2"]) ∧
    (∀ (st : SplitAcc) (p : Option Char), (st.lc || st.bc) = true →
      stepChar st ';' p = (st, false)) ∧
    (∀ (st : SplitAcc) (p : Option Char), st.inContext = true →
      (st.lc || st.bc) = false →
      stepChar st ';' p = ({ st with cur := st.cur ++ [';'] }, false)) ∧
    (∀ (s : String) (t : String), t ∈ split_sql_statements s →
      trimChars t.data = t.data ∧ t ≠ "") := by
  refine ⟨by decide, by decide, by decide, ?_, ?_, fun s t ht => split_sql_statements_trimmed s t ht⟩
  · intro st p h
    rcases st with ⟨stmts, cur, sq, dq, bt, lc, bc⟩
    cases sq <;> cases dq <;> cases bt <;> cases lc <;> cases bc <;>
      simp only [SplitAcc.inContext] at h ⊢ <;>
      first
        | rfl
        | exact absurd h (by decide)
  · intro st p h h2
    rcases st with ⟨stmts, cur, sq, dq, bt, lc, bc⟩
    cases sq <;> cases dq <;> cases bt <;> cases lc <;> cases bc <;>
      simp only [SplitAcc.inContext] at h h2 <;>
      first
        | rfl
        | exact absurd h (by decide)
        | exact absurd h2 (by decide)

/-- C3 witness: the per-step conclusions at concrete scanner states and
the trimming conclusion at a concrete split. -/
theorem C3_witness :
    stepChar ⟨[], [], false, false, false, true, false⟩ ';' none =
      (⟨[], [], false, false, false, true, false⟩, false) ∧
    stepChar ⟨[], [], true, false, false, false, false⟩ ';' none =
      (⟨[], [';'], true, false, false, false, false⟩, false) ∧
    (trimChars ("SELECT 1").data = ("SELECT 1").data ∧ ("SELECT 1" : String) ≠ "") :=
  ⟨C3_split_sql_statements_contexts.2.2.2.1 ⟨[], [], false, false, false, true, false⟩ none rfl,
   C3_split_sql_statements_contexts.2.2.2.2.1 ⟨[], [], true, false, false, false, false⟩ none rfl rfl,
   C3_split_sql_statements_contexts.2.2.2.2.2 ("SELECT 1;") ("SELECT 1") (by decide)⟩

/-! ## C8: single-statement classification and result shape -/

/-- C8 counterexample: a successful row-returning statement whose fetch
returns zero rows yields a result with empty columns (the column
descriptors are derived from the first row), refuting the claim that a
successful row-returning statement always has populated columns and
rows. -/
theorem C8_counterexample_zero_row_select :
    execute_single_query emptySelDb .postgres ("SELECT 1") 0 =
      .ok (0, { columns := [], rows := [], affected_rows := none,
                execution_time_ms := 0 }) := rfl

/-- C8 amended: classification is by leading keyword after comment
stripping (SELECT/WITH for Postgres, plus SHOW/DESCRIBE for MySQL and
PRAGMA for SQLite); a successful row-returning statement yields
affected_rows none with every row of the same arity as the column list,
and columns populated from the first row whenever at least one row comes
back (zero rows give empty columns and rows); a successful
non-row-returning statement yields empty columns and rows and the
reported affected count. -/
theorem C8_single_statement_result_shape {σ : Type} (db : PgDb σ) (sql : String)
    (s s' : σ) :
    (pg_is_select ("SELECT 1") = true ∧
     pg_is_select ("-- c\nSELECT 1") = true ∧
     pg_is_select ("WITH t AS (SELECT 1) SELECT * FROM t") = true ∧
     pg_is_select ("UPDATE t SET x=1") = false ∧
     mysql_is_select ("SHOW TABLES") = true ∧
     mysql_is_select ("DESCRIBE t") = true ∧
     sqlite_is_select ("PRAGMA table_info(t)") = true) ∧
    (∀ (rows : List PgRow) (r0 : PgRow) (rest : List PgRow),
      pg_is_select sql = true →
      db.fetchAll sql s = .ok (s', rows) → rows = r0 :: rest →
      execute_single_query db .postgres sql s = .ok (s', buildSelectResult rows) ∧
      (buildSelectResult rows).affected_rows = none ∧
      (buildSelectResult rows).columns.length = r0.cols.length ∧
      (buildSelectResult rows).rows.length = rows.length ∧
      ∀ row ∈ (buildSelectResult rows).rows,
        row.length = (buildSelectResult rows).columns.length) ∧
    (∀ n : Nat, pg_is_select sql = false → db.execCmd sql s = .ok (s', n) →
      execute_single_query db .postgres sql s =
        .ok (s', { columns := [], rows := [], affected_rows := some n,
                   execution_time_ms := 0 })) := by
  refine ⟨⟨by decide, by decide, by decide, by decide, by decide, by decide, by decide⟩, ?_, ?_⟩
  · intro rows r0 rest hsel hf hrows
    subst hrows
    refine ⟨?_, rfl, ?_, ?_, ?_⟩
    · simp [execute_single_query, execStmtInTx, hsel, hf]
    · simp [buildSelectResult]
    · simp [buildSelectResult]
    · intro row hrow
      simp only [buildSelectResult] at hrow ⊢
      rcases List.mem_map.mp hrow with ⟨r, _, rfl⟩
      simp
  · intro n hsel hx
    simp [execute_single_query, execStmtInTx, hsel, hx]

/-- C8 witness: the amended theorem at a concrete oracle where SELECT 1
returns one row with one column and an update reports three affected
rows. -/
theorem C8_witness :
    execute_single_query oneRowDb .postgres ("SELECT 1") 0 =
      .ok (0, buildSelectResult [selRow]) ∧
    (buildSelectResult [selRow]).affected_rows = none ∧
    (buildSelectResult [selRow]).columns.length = 1 ∧
    (buildSelectResult [selRow]).rows.length = 1 ∧
    execute_single_query oneRowDb .postgres ("UPDATE t SET x=1") 0 =
      .ok (0, { columns := [], rows := [], affected_rows := some 3,
                execution_time_ms := 0 }) := by
  have h := (C8_single_statement_result_shape oneRowDb ("SELECT 1") 0 0).2.1
    [selRow] selRow [] (by decide) rfl rfl
  have h2 := (C8_single_statement_result_shape oneRowDb ("UPDATE t SET x=1") 0 0).2.2
    3 (by decide) rfl
  exact ⟨h.1, h.2.1, h.2.2.1, h.2.2.2.1, h2⟩

/-- C7 witness: the amended theorem at a registry holding a pool under
identifier a whose reconnect fails. -/
theorem C7_witness :
    mgr_connect mgrA "a" pgConfig (.error "refused") =
      ((if containsKey mgrA.connections "a" then mgr_disconnect mgrA "a" else mgrA),
       .error (.ConnectionError ("Failed to connect to PostgreSQL: " ++ "refused"))) ∧
    containsKey
      (if containsKey mgrA.connections "a" then mgr_disconnect mgrA "a" else mgrA).connections
      "a" = false :=
  ⟨(C7_connect_failure_state mgrA "a" pgConfig "refused" "f.db").1 rfl,
   (C7_connect_failure_state mgrA "a" pgConfig "refused" "f.db").2.2.2.1⟩

/-- C9 witness: the determinism and the default-application conclusions
at a concrete all-absent configuration. -/
theorem C9_witness :
    pg_build_connection_string cfgDefaults =
      "postgresql://postgres:@localhost:5432/" ++ cfgDefaults.database ∧
    mysql_build_connection_string cfgDefaults =
      "mysql://root:@localhost:3306/" ++ cfgDefaults.database ∧
    pg_build_connection_string cfgDefaults = pg_build_connection_string cfgDefaults :=
  ⟨(C9_build_connection_string_deterministic_defaults.2 cfgDefaults rfl rfl rfl rfl rfl).1,
   (C9_build_connection_string_deterministic_defaults.2 cfgDefaults rfl rfl rfl rfl rfl).2,
   (C9_build_connection_string_deterministic_defaults.1 cfgDefaults cfgDefaults rfl).1⟩

/-! ## C1 and C2: multi-statement transactional execution

The loop of execute_query is related to the specification-side
description: running all statements and accumulating their individual
results. -/

theorem stmtResults_length {σ : Type} (db : PgDb σ) :
    ∀ (stmts : List String) (s s' : σ) (rs : List QueryResult),
      stmtResults db stmts s = .ok (s', rs) → rs.length = stmts.length := by
  intro stmts
  induction stmts with
  | nil =>
    intro s s' rs h
    simp only [stmtResults, Except.ok.injEq, Prod.mk.injEq] at h
    rw [← h.2]
    rfl
  | cons stmt rest ih =>
    intro s s' rs h
    simp only [stmtResults] at h
    cases hx : execStmtInTx db stmt s with
    | error e => rw [hx] at h; simp at h
    | ok sr =>
      rw [hx] at h
      obtain ⟨s1, r⟩ := sr
      dsimp only at h
      cases hrest : stmtResults db rest s1 with
      | error e => rw [hrest] at h; simp at h
      | ok pr =>
        obtain ⟨s2, rs2⟩ := pr
        rw [hrest] at h
        dsimp only at h
        simp only [Except.ok.injEq, Prod.mk.injEq] at h
        rw [← h.2]
        simp [ih s1 s2 rs2 hrest]

theorem txLoop_of_stmtResults {σ : Type} (db : PgDb σ) :
    ∀ (stmts : List String) (s s' : σ) (rs : List QueryResult) (i : Nat)
      (final : QueryResult),
      stmtResults db stmts s = .ok (s', rs) →
      txLoop db stmts i s final =
        (s', rangeFrom i stmts.length, .ok (accumulateResults final rs)) := by
  intro stmts
  induction stmts with
  | nil =>
    intro s s' rs i final h
    simp only [stmtResults, Except.ok.injEq, Prod.mk.injEq] at h
    obtain ⟨he, h2⟩ := h
    subst he
    rw [← h2]
    rfl
  | cons stmt rest ih =>
    intro s s' rs i final h
    simp only [stmtResults] at h
    cases hx : execStmtInTx db stmt s with
    | error e => rw [hx] at h; simp at h
    | ok sr =>
      rw [hx] at h
      obtain ⟨s1, r⟩ := sr
      dsimp only at h
      cases hrest : stmtResults db rest s1 with
      | error e => rw [hrest] at h; simp at h
      | ok pr =>
        obtain ⟨s2, rs2⟩ := pr
        rw [hrest] at h
        dsimp only at h
        simp only [Except.ok.injEq, Prod.mk.injEq] at h
        obtain ⟨he, h2⟩ := h
        subst he
        rw [← h2]
        simp only [txLoop, hx]
        rw [ih s1 s2 rs2 (i + 1) (accumStep final r rest.isEmpty) hrest]
        cases rest with
        | nil =>
          have hnil : rs2 = [] := by
            have hl := stmtResults_length db [] s1 s2 rs2 hrest
            exact List.length_eq_zero.mp hl
          subst hnil
          rfl
        | cons b t2 =>
          have hl := stmtResults_length db (b :: t2) s1 s2 rs2 hrest
          cases rs2 with
          | nil => simp at hl
          | cons q qs => rfl

theorem txLoop_failure {σ : Type} (db : PgDb σ) :
    ∀ (pre : List String) (bad : String) (post : List String) (s s1 : σ)
      (rs1 : List QueryResult) (err : AppError) (i : Nat) (final : QueryResult),
      stmtResults db pre s = .ok (s1, rs1) →
      execStmtInTx db bad s1 = .error err →
      txLoop db (pre ++ bad :: post) i s final =
        (s1, rangeFrom i (pre.length + 1), .error err) := by
  intro pre
  induction pre with
  | nil =>
    intro bad post s s1 rs1 err i final hpre hbad
    simp only [stmtResults, Except.ok.injEq, Prod.mk.injEq] at hpre
    obtain ⟨rfl, -⟩ := hpre
    simp only [List.nil_append, txLoop, hbad]
    rfl
  | cons p pre' ih =>
    intro bad post s s1 rs1 err i final hpre hbad
    simp only [stmtResults] at hpre
    cases hx : execStmtInTx db p s with
    | error e => rw [hx] at hpre; simp at hpre
    | ok sr =>
      rw [hx] at hpre
      obtain ⟨s0, r⟩ := sr
      dsimp only at hpre
      cases hrest : stmtResults db pre' s0 with
      | error e => rw [hrest] at hpre; simp at hpre
      | ok pr =>
        obtain ⟨s2, rs2⟩ := pr
        rw [hrest] at hpre
        dsimp only at hpre
        simp only [Except.ok.injEq, Prod.mk.injEq] at hpre
        obtain ⟨he, -⟩ := hpre
        subst he
        simp only [List.cons_append, txLoop, hx, List.append_eq]
        rw [ih bad post s0 s2 rs2 err (i + 1)
          (accumStep final r (pre' ++ bad :: post).isEmpty) hrest hbad]
        rfl

theorem accumStep_midQR (o : Option QueryResult) (acc : Option Nat)
    (r : QueryResult) (isLast : Bool) :
    accumStep (midQR o acc) r isLast =
      if 0 < r.rows.length then midQR (some r) (affStep acc r)
      else if isLast && (midQR o (affStep acc r)).rows.isEmpty then r
      else midQR o (affStep acc r) := by
  unfold accumStep affStep midQR
  cases o <;> cases hra : r.affected_rows <;> cases acc <;> simp [hra]

theorem accumulateResults_spec :
    ∀ (rs : List QueryResult) (o : Option QueryResult) (acc : Option Nat),
      (∀ r, o = some r → r.rows ≠ []) → rs ≠ [] →
      accumulateResults (midQR o acc) rs =
        (match lastRowsFrom o rs with
         | some r => { r with affected_rows := sumAffectedFrom acc rs }
         | none => rs.getLastD emptyQueryResult) := by
  intro rs
  induction rs with
  | nil => intro o acc ho h; exact absurd rfl h
  | cons r rest ih =>
    intro o acc ho h
    cases rest with
    | nil =>
      rw [show accumulateResults (midQR o acc) [r] = accumStep (midQR o acc) r true
        from rfl]
      rw [accumStep_midQR]
      cases hrw : r.rows with
      | nil =>
        cases o with
        | none =>
          simp [lastRowsFrom, sumAffectedFrom, midQR, hrw]
        | some ro =>
          have hro := ho ro rfl
          have hroe : ro.rows.isEmpty = false := by
            cases hc : ro.rows with
            | nil => exact absurd hc hro
            | cons a b => rfl
          simp [lastRowsFrom, sumAffectedFrom, midQR, hrw, hroe]
      | cons v vs =>
        simp [lastRowsFrom, sumAffectedFrom, midQR, hrw]
    | cons r2 rest2 =>
      rw [show accumulateResults (midQR o acc) (r :: r2 :: rest2) =
        accumulateResults (accumStep (midQR o acc) r false) (r2 :: rest2) from rfl]
      rw [accumStep_midQR]
      cases hrw : r.rows with
      | nil =>
        rw [if_neg (by simp), if_neg (by simp), ih o (affStep acc r) ho (by simp)]
        have hlast : lastRowsFrom o (r :: r2 :: rest2) =
            lastRowsFrom o (r2 :: rest2) := by
          simp [lastRowsFrom, hrw]
        rw [hlast]
        rfl
      | cons v vs =>
        rw [if_pos (by simp), ih (some r) (affStep acc r)
          (by intro r' he; injection he with he2; rw [← he2, hrw]; simp)
          (by simp)]
        have hlast : lastRowsFrom o (r :: r2 :: rest2) =
            lastRowsFrom (some r) (r2 :: rest2) := by
          simp [lastRowsFrom, hrw]
        rw [hlast]
        rfl

theorem accumulate_eq_multiSpec (rs : List QueryResult) (h : rs ≠ []) :
    accumulateResults emptyQueryResult rs = multiSpecResult rs := by
  have hs := accumulateResults_spec rs none none (by intro r hr; cases hr) h
  rw [show midQR none none = emptyQueryResult from rfl] at hs
  rw [hs]
  unfold multiSpecResult
  cases hlr : lastRowsFrom none rs with
  | none => rfl
  | some r => rfl

/-- C1 counterexample: a two-statement script of writes, each reporting
one affected row, commits with affected_rows some 1 — the last-statement
branch of the loop overwrites the accumulated sum — refuting the claim
that the final affected count is the sum (2) for every statement
sequence, in particular for scripts with no row-returning statement. -/
theorem C1_counterexample_write_only_script :
    stmtResults writeDb
        (split_sql_statements ("INSERT INTO t VALUES (1); INSERT INTO t VALUES (2)")) 0 =
      .ok (2, [{ columns := [], rows := [], affected_rows := some 1, execution_time_ms := 0 },
               { columns := [], rows := [], affected_rows := some 1, execution_time_ms := 0 }]) ∧
    execute_query writeDb .postgres
        ("INSERT INTO t VALUES (1); INSERT INTO t VALUES (2)") 0 =
      (2, [0, 1], .ok { columns := [], rows := [], affected_rows := some 1,
                        execution_time_ms := 0 }) ∧
    ¬ execute_query writeDb .postgres
        ("INSERT INTO t VALUES (1); INSERT INTO t VALUES (2)") 0 =
      (2, [0, 1], .ok { columns := [], rows := [], affected_rows := some 2,
                        execution_time_ms := 0 }) := by
  refine ⟨rfl, rfl, ?_⟩
  intro hcon
  rw [show execute_query writeDb .postgres
      ("INSERT INTO t VALUES (1); INSERT INTO t VALUES (2)") 0 =
    (2, [0, 1], .ok { columns := [], rows := [], affected_rows := some 1,
                      execution_time_ms := 0 }) from rfl] at hcon
  simp at hcon

/-- C1 amended: a script of two or more statements runs inside one
transaction (on success the post-state is the sequential composition of
all statements, committed together); the final result is multiSpecResult
of the per-statement results: when some statement produced at least one
row, the last such statement's columns and rows win and affected_rows is
the sum of every reported affected count; when no statement produced any
row, the final result is the last statement's own result, whose affected
count is that statement's own (the accumulated sum is discarded). -/
theorem C1_multi_statement_accumulation {σ : Type} (db : PgDb σ) (sql : String)
    (s0 s' : σ) (stmts : List String) (rs : List QueryResult)
    (hsplit : split_sql_statements sql = stmts)
    (hlen : 2 ≤ stmts.length)
    (hbegin : db.beginRes s0 = .ok ())
    (hrun : stmtResults db stmts s0 = .ok (s', rs))
    (hcommit : db.commitRes s' = .ok ()) :
    execute_query db .postgres sql s0 =
      (s', rangeFrom 0 stmts.length,
       .ok { multiSpecResult rs with execution_time_ms := 0 }) := by
  obtain ⟨a, t, rfl⟩ : ∃ a t, stmts = a :: t := by
    cases stmts with
    | nil => simp at hlen
    | cons a t => exact ⟨a, t, rfl⟩
  obtain ⟨b, t2, rfl⟩ : ∃ b t2, t = b :: t2 := by
    cases t with
    | nil => simp at hlen
    | cons b t2 => exact ⟨b, t2, rfl⟩
  have hrs : rs ≠ [] := by
    have hl := stmtResults_length db _ _ _ _ hrun
    intro hcon
    rw [hcon] at hl
    simp at hl
  simp only [execute_query, hsplit, hbegin]
  rw [txLoop_of_stmtResults db (a :: b :: t2) s0 s' rs 0 emptyQueryResult hrun]
  simp only [hcommit]
  rw [accumulate_eq_multiSpec rs hrs]

/-- C1 witness: the amended theorem at the concrete two-insert script
under the writeDb oracle; the committed result carries the second
insert's count. -/
theorem C1_witness :
    execute_query writeDb .postgres ("UPDATE t SET x=1; DELETE FROM u") 0 =
      (2, rangeFrom 0 2,
       .ok { multiSpecResult
               [{ columns := [], rows := [], affected_rows := some 1, execution_time_ms := 0 },
                { columns := [], rows := [], affected_rows := some 1, execution_time_ms := 0 }]
             with execution_time_ms := 0 }) :=
  C1_multi_statement_accumulation writeDb ("UPDATE t SET x=1; DELETE FROM u") 0 2
    ["UPDATE t SET x=1", "DELETE FROM u"]
    [{ columns := [], rows := [], affected_rows := some 1, execution_time_ms := 0 },
     { columns := [], rows := [], affected_rows := some 1, execution_time_ms := 0 }]
    rfl (by decide) rfl rfl rfl

/-- C2 counterexample: two scripts failing at different statement
indices (the second statement of the first script, the first statement
of the second, as the executed-index traces show) return the identical
error value, so the returned error does not identify which statement
failed. -/
theorem C2_counterexample_error_lacks_index :
    execute_query boomDb .postgres ("UPDATE a SET x=1; BOOM") 0 =
      (0, [0, 1], .error (.QueryError "Query execution failed: syntax error near BOOM")) ∧
    execute_query boomDb .postgres ("BOOM; UPDATE a SET x=1") 0 =
      (0, [0], .error (.QueryError "Query execution failed: syntax error near BOOM")) :=
  ⟨rfl, rfl⟩

/-- C2 amended: when a statement of a multi-statement script fails, the
statements after it are not executed (the executed indices are exactly 0
through the failing index), the transaction is rolled back so the
visible state is the initial one, and the original wrapped native error
is returned; if the rollback itself also fails, the returned error
chains the original failure with the rollback failure rather than
masking it.  The error does not carry the failing statement's index. -/
theorem C2_statement_failure_rolls_back {σ : Type} (db : PgDb σ) (sql : String)
    (s0 s1 : σ) (pre post : List String) (bad : String)
    (rs1 : List QueryResult) (err : AppError)
    (hsplit : split_sql_statements sql = pre ++ bad :: post)
    (hlen : 2 ≤ (pre ++ bad :: post).length)
    (hbegin : db.beginRes s0 = .ok ())
    (hpre : stmtResults db pre s0 = .ok (s1, rs1))
    (hbad : execStmtInTx db bad s1 = .error err) :
    (db.rollbackRes s1 = .ok () →
      execute_query db .postgres sql s0 =
        (s0, rangeFrom 0 (pre.length + 1), .error err)) ∧
    (∀ re : String, db.rollbackRes s1 = .error re →
      execute_query db .postgres sql s0 =
        (s0, rangeFrom 0 (pre.length + 1),
         .error (.QueryError ("Query failed: " ++ err.display ++
           ". Transaction rollback also failed: " ++ re)))) := by
  have hLoop := txLoop_failure db pre bad post s0 s1 rs1 err 0 emptyQueryResult hpre hbad
  obtain ⟨a, t, hL⟩ : ∃ a t, pre ++ bad :: post = a :: t := by
    cases hc : pre ++ bad :: post with
    | nil => rw [hc] at hlen; simp at hlen
    | cons a t => exact ⟨a, t, rfl⟩
  obtain ⟨b, t2, hL2⟩ : ∃ b t2, t = b :: t2 := by
    cases hc : t with
    | nil => rw [hL, hc] at hlen; simp at hlen
    | cons b t2 => exact ⟨b, t2, rfl⟩
  rw [hL2] at hL
  constructor
  · intro hrb
    simp only [execute_query, hsplit, hL, hbegin]
    rw [← hL, hLoop]
    simp only [hrb]
  · intro re hrb
    simp only [execute_query, hsplit, hL, hbegin]
    rw [← hL, hLoop]
    simp only [hrb]

/-- C2 witness: the amended theorem at a concrete three-statement script
failing at index 1, once with a successful rollback and once with a
failing rollback producing the chained error. -/
theorem C2_witness :
    execute_query boomDb .postgres ("UPDATE a SET x=1; BOOM; SELECT 1") 0 =
      (0, rangeFrom 0 2,
       .error (.QueryError "Query execution failed: syntax error near BOOM")) ∧
    execute_query boomDbRbFail .postgres ("UPDATE a SET x=1; BOOM; SELECT 1") 0 =
      (0, rangeFrom 0 2,
       .error (.QueryError ("Query failed: " ++
         (AppError.QueryError "Query execution failed: syntax error near BOOM").display ++
         ". Transaction rollback also failed: " ++ "connection lost"))) :=
  ⟨(C2_statement_failure_rolls_back boomDb ("UPDATE a SET x=1; BOOM; SELECT 1") 0 1
      ["UPDATE a SET x=1"] ["SELECT 1"] "BOOM"
      [{ columns := [], rows := [], affected_rows := some 1, execution_time_ms := 0 }]
      (.QueryError "Query execution failed: syntax error near BOOM")
      rfl (by decide) rfl rfl rfl).1 rfl,
   (C2_statement_failure_rolls_back boomDbRbFail ("UPDATE a SET x=1; BOOM; SELECT 1") 0 1
      ["UPDATE a SET x=1"] ["SELECT 1"] "BOOM"
      [{ columns := [], rows := [], affected_rows := some 1, execution_time_ms := 0 }]
      (.QueryError "Query execution failed: syntax error near BOOM")
      rfl (by decide) rfl rfl rfl).2 "connection lost" rfl⟩
